import Mathlib

/-!
Shallow embedding of the PX4 RTL (return-to-launch) phase state machine from
`src/modules/navigator/rtl.cpp`.  Machine floats are modelled as rationals,
the not-a-number yaw sentinel as `Option ℚ`, and the mutable navigator /
mission-block context as explicit fields of one controller state record.
The lifecycle hooks `on_inactive`, `on_activation`, `on_active`, the phase
advancement `advance_rtl` and the target computation `set_rtl_item` are
transcribed from the source; collaborator functions that live outside this
source fragment are modelled from the spec and marked as such.
-/

/-- The RTL phase enumeration `RTLState` of the source
(`RTL_STATE_NONE` … `RTL_STATE_LANDED`). -/
inductive RtlState
  | NONE
  | CLIMB
  | RETURN
  | DESCEND
  | LOITER
  | LAND
  | LANDED
  deriving DecidableEq, Repr

/-- Navigation command kinds used by this fragment (`NAV_CMD_WAYPOINT`,
`NAV_CMD_LOITER_TIME_LIMIT`, `NAV_CMD_LOITER_UNLIMITED`, plus the land and
idle commands produced by the dedicated constructors). -/
inductive NavCmd
  | WAYPOINT
  | LOITER_TIME_LIMIT
  | LOITER_UNLIMITED
  | LAND
  | IDLE
  deriving DecidableEq, Repr

/-- Origin tag of a mission item; this fragment only ever writes
`ORIGIN_ONBOARD`. -/
inductive Origin
  | onboard
  | mavlink
  deriving DecidableEq, Repr

/-- Advisory messages emitted through `mavlink_log_critical`, one constructor
per format string of the source, carrying the numeric arguments. -/
inductive Advisory
  | noRtlWhenLanded
  | climbTo (alt aboveHome : ℚ)
  | returnAt (alt aboveHome : ℚ)
  | descendTo (alt aboveHome : ℚ)
  | loiterFor (secs : ℚ)
  | completedLoiter
  | landAtHome
  | completedLanded
  deriving DecidableEq, Repr

/-- The mission item `_mission_item`: the single outstanding navigation
target.  `yaw = none` models the not-a-number "unspecified yaw" sentinel. -/
structure MissionItem where
  lat : ℚ
  lon : ℚ
  altitude_is_relative : Bool
  altitude : ℚ
  yaw : Option ℚ
  loiter_radius : ℚ
  loiter_direction : Int
  nav_cmd : NavCmd
  acceptance_radius : ℚ
  time_inside : ℚ
  pitch_min : ℚ
  autocontinue : Bool
  origin : Origin
  deriving DecidableEq, Repr

/-- One slot of the position-setpoint triplet, with its validity flag. -/
structure PositionSetpoint where
  valid : Bool
  lat : ℚ
  lon : ℚ
  alt : ℚ
  yaw : Option ℚ
  deriving DecidableEq, Repr

/-- The navigator's position-setpoint triplet (previous / current / next). -/
structure PositionSetpointTriplet where
  previous : PositionSetpoint
  current : PositionSetpoint
  next : PositionSetpoint
  deriving DecidableEq, Repr

/-- Read-only per-cycle snapshot of the collaborators: vehicle status,
global position, home position, navigator configuration, the three RTL
parameters (re-read by `updateParams` at the start of every target
computation, hence taken from this snapshot), and the externally determined
verdict of `is_mission_item_reached` for this cycle. -/
structure Env where
  condition_landed : Bool
  gpos_lat : ℚ
  gpos_lon : ℚ
  gpos_alt : ℚ
  home_lat : ℚ
  home_lon : ℚ
  home_alt : ℚ
  home_yaw : ℚ
  loiter_radius : ℚ
  acceptance_radius : ℚ
  return_alt : ℚ
  descend_alt : ℚ
  land_delay : ℚ
  item_reached : Bool
  deriving DecidableEq, Repr

/-- The controller state: the RTL fields `_rtl_state` and `_rtl_start_lock`
together with the mutable context the hooks write through the navigator and
mission block (mission item, setpoint triplet, can-loiter permission, the
target-reached latch, the triplet-updated signal, and the advisory log). -/
structure RTLCtl where
  rtl_state : RtlState
  rtl_start_lock : Bool
  mission_item : MissionItem
  triplet : PositionSetpointTriplet
  can_loiter_at_sp : Bool
  mission_item_reached : Bool
  triplet_updated : Bool
  advisories : List Advisory
  deriving DecidableEq, Repr

/-- The tolerance `DELAY_SIGMA` (0.01f) of the source. -/
def DELAY_SIGMA : ℚ := 1 / 100

/-- Modelled from the spec: the geometry helper `get_bearing_to_next_waypoint`
(from geo/geo.h, not part of this source fragment) is "assumed available as a
pure function and not re-specified"; any fixed pure function of the two
lat/lon pairs serves as its stand-in. -/
def get_bearing_to_next_waypoint (lat_now lon_now lat_next lon_next : ℚ) : ℚ :=
  (lat_next - lat_now) + 2 * (lon_next - lon_now)

/-- Modelled from the spec: `MissionBlock::set_previous_pos_setpoint` (not in
this source fragment) captures "the current outstanding target as the new
previous setpoint baseline". -/
def set_previous_pos_setpoint (s : RTLCtl) : RTLCtl :=
  { s with triplet := { s.triplet with previous := s.triplet.current } }

/-- Modelled from the spec: `mission_item_to_position_setpoint` (not in this
source fragment) converts "the mission item into the downstream
position-setpoint representation", making the current slot valid. -/
def mission_item_to_position_setpoint (item : MissionItem) : PositionSetpoint :=
  { valid := true
    lat := item.lat
    lon := item.lon
    alt := item.altitude
    yaw := item.yaw }

/-- Modelled from the spec: `MissionBlock::set_land_item` (not in this source
fragment), the "dedicated land-target constructor" producing a landing
approach at home. -/
def set_land_item (env : Env) (item : MissionItem) : MissionItem :=
  { item with
    lat := env.home_lat
    lon := env.home_lon
    nav_cmd := NavCmd.LAND
    autocontinue := true }

/-- Modelled from the spec: `MissionBlock::set_idle_item` (not in this source
fragment), the "dedicated idle-target constructor" for a stationary hold. -/
def set_idle_item (item : MissionItem) : MissionItem :=
  { item with nav_cmd := NavCmd.IDLE, autocontinue := true }

/-- Transcribes `RTL::on_inactive`: reset the RTL state only if the setpoint moved,
i.e. when the navigator's can-loiter-at-setpoint permission is false. -/
def on_inactive (s : RTLCtl) : RTLCtl :=
  if !s.can_loiter_at_sp then { s with rtl_state := RtlState.NONE } else s

/-- The per-phase switch of `RTL::set_rtl_item`, acting on the state after
the optional previous-setpoint capture and the clearing of the can-loiter
permission; each branch writes the mission item fields exactly as the source
does and appends the source's advisory. -/
def rtl_item_for_state (env : Env) (s : RTLCtl) : RTLCtl :=
  match s.rtl_state with
  | RtlState.CLIMB =>
    let climb_alt := env.home_alt + env.return_alt
    { s with
      mission_item := { s.mission_item with
        lat := env.gpos_lat
        lon := env.gpos_lon
        altitude_is_relative := false
        altitude := climb_alt
        yaw := none
        loiter_radius := env.loiter_radius
        loiter_direction := 1
        nav_cmd := NavCmd.WAYPOINT
        acceptance_radius := env.acceptance_radius
        time_inside := 0
        pitch_min := 0
        autocontinue := true
        origin := Origin.onboard }
      advisories := s.advisories ++
        [Advisory.climbTo climb_alt (climb_alt - env.home_alt)] }
  | RtlState.RETURN =>
    let lat := env.home_lat
    let lon := env.home_lon
    let yaw :=
      if s.triplet.previous.valid then
        get_bearing_to_next_waypoint s.triplet.previous.lat s.triplet.previous.lon lat lon
      else
        get_bearing_to_next_waypoint env.gpos_lat env.gpos_lon lat lon
    { s with
      mission_item := { s.mission_item with
        lat := lat
        lon := lon
        yaw := some yaw
        loiter_radius := env.loiter_radius
        loiter_direction := 1
        nav_cmd := NavCmd.WAYPOINT
        acceptance_radius := env.acceptance_radius
        time_inside := 0
        pitch_min := 0
        autocontinue := true
        origin := Origin.onboard }
      advisories := s.advisories ++
        [Advisory.returnAt s.mission_item.altitude
          (s.mission_item.altitude - env.home_alt)]
      rtl_start_lock := true }
  | RtlState.DESCEND =>
    let alt := env.home_alt + env.descend_alt
    { s with
      mission_item := { s.mission_item with
        lat := env.home_lat
        lon := env.home_lon
        altitude_is_relative := false
        altitude := alt
        yaw := some env.home_yaw
        loiter_radius := env.loiter_radius
        loiter_direction := 1
        nav_cmd := NavCmd.LOITER_TIME_LIMIT
        acceptance_radius := env.acceptance_radius
        time_inside := 0
        pitch_min := 0
        autocontinue := false
        origin := Origin.onboard }
      advisories := s.advisories ++
        [Advisory.descendTo alt (alt - env.home_alt)] }
  | RtlState.LOITER =>
    let autoland := env.land_delay > -DELAY_SIGMA
    let time_inside := if env.land_delay < 0 then 0 else env.land_delay
    { s with
      mission_item := { s.mission_item with
        lat := env.home_lat
        lon := env.home_lon
        altitude_is_relative := false
        altitude := env.home_alt + env.descend_alt
        yaw := some env.home_yaw
        loiter_radius := env.loiter_radius
        loiter_direction := 1
        nav_cmd := if autoland then NavCmd.LOITER_TIME_LIMIT else NavCmd.LOITER_UNLIMITED
        acceptance_radius := env.acceptance_radius
        time_inside := time_inside
        pitch_min := 0
        autocontinue := autoland
        origin := Origin.onboard }
      can_loiter_at_sp := true
      advisories := s.advisories ++
        [if autoland then Advisory.loiterFor time_inside else Advisory.completedLoiter] }
  | RtlState.LAND =>
    { s with
      mission_item := set_land_item env s.mission_item
      advisories := s.advisories ++ [Advisory.landAtHome] }
  | RtlState.LANDED =>
    { s with
      mission_item := set_idle_item s.mission_item
      advisories := s.advisories ++ [Advisory.completedLanded] }
  | RtlState.NONE => s

/-- Transcribes `RTL::set_rtl_item`: refresh parameters (the snapshot `env` already holds
the latest values), capture the previous setpoint unless start-locked, clear
the can-loiter permission, run the per-phase switch, then the common tail:
reset the target-reached latch, convert the mission item into the current
position setpoint, invalidate the next slot, and signal the triplet update. -/
def set_rtl_item (env : Env) (s : RTLCtl) : RTLCtl :=
  let s1 := if !s.rtl_start_lock then set_previous_pos_setpoint s else s
  let s2 := { s1 with can_loiter_at_sp := false }
  let s3 := rtl_item_for_state env s2
  { s3 with
    mission_item_reached := false
    triplet := { s3.triplet with
      current := mission_item_to_position_setpoint s3.mission_item
      next := { s3.triplet.next with valid := false } }
    triplet_updated := true }

/-- The entry decision of `RTL::on_activation`: decide where to enter the RTL
procedure when switching into it, only when the held phase is `NONE`. -/
def rtl_entry_decision (env : Env) (s : RTLCtl) : RTLCtl :=
  if s.rtl_state = RtlState.NONE then
    if env.condition_landed then
      { s with
        rtl_state := RtlState.LANDED
        advisories := s.advisories ++ [Advisory.noRtlWhenLanded] }
    else if env.gpos_alt < env.home_alt + env.return_alt then
      { s with rtl_state := RtlState.CLIMB, rtl_start_lock := false }
    else
      { s with
        rtl_state := RtlState.RETURN
        mission_item := { s.mission_item with
          altitude_is_relative := false
          altitude := env.gpos_alt }
        rtl_start_lock := false }
  else s

/-- Transcribes `RTL::on_activation`: run the entry decision, then compute the target. -/
def on_activation (env : Env) (s : RTLCtl) : RTLCtl :=
  set_rtl_item env (rtl_entry_decision env s)

/-- Transcribes `RTL::advance_rtl`: the forward phase transition. -/
def advance_rtl_state (env : Env) (s : RTLCtl) : RTLCtl :=
  match s.rtl_state with
  | RtlState.CLIMB => { s with rtl_state := RtlState.RETURN }
  | RtlState.RETURN => { s with rtl_state := RtlState.DESCEND }
  | RtlState.DESCEND =>
    if env.land_delay < -DELAY_SIGMA ∨ env.land_delay > DELAY_SIGMA then
      { s with rtl_state := RtlState.LOITER }
    else
      { s with rtl_state := RtlState.LAND }
  | RtlState.LOITER => { s with rtl_state := RtlState.LAND }
  | RtlState.LAND => { s with rtl_state := RtlState.LANDED }
  | _ => s

/-- Transcribes `RTL::on_active`: while not landed, if the mission item is reached
(externally determined this cycle), advance the phase and recompute. -/
def on_active (env : Env) (s : RTLCtl) : RTLCtl :=
  if s.rtl_state ≠ RtlState.LANDED ∧ env.item_reached then
    set_rtl_item env (advance_rtl_state env s)
  else s

/-- The mission item as zero-initialized at construction. -/
def initialMissionItem : MissionItem :=
  { lat := 0, lon := 0, altitude_is_relative := false, altitude := 0
    yaw := none, loiter_radius := 0, loiter_direction := 0
    nav_cmd := NavCmd.WAYPOINT, acceptance_radius := 0, time_inside := 0
    pitch_min := 0, autocontinue := false, origin := Origin.onboard }

/-- An invalid zero setpoint slot. -/
def initialSetpoint : PositionSetpoint :=
  { valid := false, lat := 0, lon := 0, alt := 0, yaw := none }

/-- The state established by the constructor `RTL::RTL`: `_rtl_state = NONE`,
`_rtl_start_lock = false`, followed by the initial `on_inactive` reset. -/
def initialState : RTLCtl :=
  on_inactive
    { rtl_state := RtlState.NONE
      rtl_start_lock := false
      mission_item := initialMissionItem
      triplet := { previous := initialSetpoint, current := initialSetpoint
                   next := initialSetpoint }
      can_loiter_at_sp := false
      mission_item_reached := false
      triplet_updated := false
      advisories := [] }

/-- Ordering index of the phases along CLIMB → RETURN → DESCEND → LOITER →
LAND → LANDED, with the sentinel `NONE` at the bottom. -/
def phaseIdx : RtlState → Nat
  | RtlState.NONE => 0
  | RtlState.CLIMB => 1
  | RtlState.RETURN => 2
  | RtlState.DESCEND => 3
  | RtlState.LOITER => 4
  | RtlState.LAND => 5
  | RtlState.LANDED => 6

/-- Concrete controller state used by witnesses: a fresh controller whose
phase has been set to `st`. -/
def ctlW (st : RtlState) : RTLCtl :=
  { rtl_state := st
    rtl_start_lock := false
    mission_item := initialMissionItem
    triplet := { previous := initialSetpoint, current := initialSetpoint
                 next := initialSetpoint }
    can_loiter_at_sp := false
    mission_item_reached := false
    triplet_updated := false
    advisories := [] }

/-- Concrete controller state with the can-loiter permission granted. -/
def ctlCanLoiter : RTLCtl := { ctlW RtlState.LOITER with can_loiter_at_sp := true }

/-- Concrete airborne snapshot below the return altitude, with a positive
land delay. -/
def envW : Env :=
  { condition_landed := false
    gpos_lat := 1, gpos_lon := 2, gpos_alt := 80
    home_lat := 0, home_lon := 0, home_alt := 100, home_yaw := 3
    loiter_radius := 50, acceptance_radius := 10
    return_alt := 50, descend_alt := 20, land_delay := 5
    item_reached := true }

/-- Concrete airborne snapshot above the return altitude. -/
def envHigh : Env := { envW with gpos_alt := 200, item_reached := false }

/-- Concrete landed snapshot. -/
def envLanded : Env := { envHigh with condition_landed := true }

/-- Concrete snapshot with a strongly negative land delay. -/
def envNeg : Env := { envW with land_delay := -1 }

theorem set_rtl_item_rtl_state (env : Env) (s : RTLCtl) :
    (set_rtl_item env s).rtl_state = s.rtl_state := by
  rcases s with ⟨st, lock, mi, tr, cl, mr, tu, ad⟩
  cases st <;> cases lock <;> rfl

theorem set_rtl_item_start_lock (env : Env) (s : RTLCtl) :
    (set_rtl_item env s).rtl_start_lock =
      (s.rtl_start_lock || decide (s.rtl_state = RtlState.RETURN)) := by
  rcases s with ⟨st, lock, mi, tr, cl, mr, tu, ad⟩
  cases st <;> cases lock <;> rfl

theorem set_rtl_item_return_keeps_altitude (env : Env) (s : RTLCtl)
    (h : s.rtl_state = RtlState.RETURN) :
    (set_rtl_item env s).mission_item.altitude = s.mission_item.altitude ∧
    (set_rtl_item env s).mission_item.altitude_is_relative =
      s.mission_item.altitude_is_relative := by
  rcases s with ⟨st, lock, mi, tr, cl, mr, tu, ad⟩
  simp only at h
  subst h
  cases lock <;> exact ⟨rfl, rfl⟩

/-- C6: `on_inactive` leaves the state untouched when the can-loiter
permission holds, and otherwise only resets the phase to `NONE`. -/
theorem on_inactive_spec (s : RTLCtl) :
    (s.can_loiter_at_sp = true → on_inactive s = s) ∧
    (s.can_loiter_at_sp = false →
      on_inactive s = { s with rtl_state := RtlState.NONE }) := by
  constructor <;> intro h <;> simp [on_inactive, h]

/-- C6 witness: on concrete states, `on_inactive` is the identity when the
permission holds and resets only the phase when it does not. -/
theorem on_inactive_spec_witness :
    on_inactive ctlCanLoiter = ctlCanLoiter ∧
    on_inactive (ctlW RtlState.CLIMB) =
      { ctlW RtlState.CLIMB with rtl_state := RtlState.NONE } :=
  ⟨(on_inactive_spec ctlCanLoiter).1 rfl,
   (on_inactive_spec (ctlW RtlState.CLIMB)).2 rfl⟩

/-- C8: every target computation ends by resetting the target-reached latch,
writing the mission item into the current setpoint slot, invalidating the
next slot, and signaling the triplet update. -/
theorem set_rtl_item_tail (env : Env) (s : RTLCtl) :
    (set_rtl_item env s).mission_item_reached = false ∧
    (set_rtl_item env s).triplet.current =
      mission_item_to_position_setpoint (set_rtl_item env s).mission_item ∧
    (set_rtl_item env s).triplet.next.valid = false ∧
    (set_rtl_item env s).triplet_updated = true := by
  rcases s with ⟨st, lock, mi, tr, cl, mr, tu, ad⟩
  cases st <;> cases lock <;> exact ⟨rfl, rfl, rfl, rfl⟩

/-- C9: after every target computation the can-loiter permission holds
exactly when the phase being computed is `LOITER`. -/
theorem set_rtl_item_can_loiter (env : Env) (s : RTLCtl) :
    (set_rtl_item env s).can_loiter_at_sp =
      decide (s.rtl_state = RtlState.LOITER) := by
  rcases s with ⟨st, lock, mi, tr, cl, mr, tu, ad⟩
  cases st <;> cases lock <;> rfl

/-- C10: when the phase is `LANDED`, or the current mission item is not
reached this cycle, `on_active` leaves the whole controller state (phase,
start lock, mission item, setpoint triplet, advisory log) unchanged. -/
theorem on_active_frame (env : Env) (s : RTLCtl)
    (h : s.rtl_state = RtlState.LANDED ∨ env.item_reached = false) :
    on_active env s = s := by
  rcases h with h | h <;> simp [on_active, h]

/-- C10 witness: `on_active` is the identity on a concrete landed state. -/
theorem on_active_frame_witness :
    on_active envHigh (ctlW RtlState.LANDED) = ctlW RtlState.LANDED :=
  on_active_frame envHigh (ctlW RtlState.LANDED) (Or.inl rfl)

theorem advance_rtl_keeps_lock (env : Env) (s : RTLCtl) :
    (advance_rtl_state env s).rtl_start_lock = s.rtl_start_lock := by
  rcases s with ⟨st, lock, mi, tr, cl, mr, tu, ad⟩
  cases st <;> first
    | rfl
    | (simp only [advance_rtl_state]; split <;> rfl)

theorem phaseIdx_advance_le (env : Env) (s : RTLCtl) :
    phaseIdx s.rtl_state ≤ phaseIdx (advance_rtl_state env s).rtl_state := by
  rcases s with ⟨st, lock, mi, tr, cl, mr, tu, ad⟩
  cases st <;> simp only [advance_rtl_state] <;> (try split) <;> simp [phaseIdx]

/-- C1: the entry decision of activation: from a held phase `NONE`, a landed
vehicle enters `LANDED`, an airborne vehicle below the return altitude enters
`CLIMB`, and otherwise enters `RETURN` with the mission item altitude pinned
to the current altitude and marked absolute (the RETURN target computation
leaves the altitude untouched); a held phase other than `NONE` is kept. -/
theorem on_activation_entry (env : Env) (s : RTLCtl) :
    (s.rtl_state = RtlState.NONE → env.condition_landed = true →
      (on_activation env s).rtl_state = RtlState.LANDED) ∧
    (s.rtl_state = RtlState.NONE → env.condition_landed = false →
      env.gpos_alt < env.home_alt + env.return_alt →
      (on_activation env s).rtl_state = RtlState.CLIMB) ∧
    (s.rtl_state = RtlState.NONE → env.condition_landed = false →
      ¬ env.gpos_alt < env.home_alt + env.return_alt →
      (on_activation env s).rtl_state = RtlState.RETURN ∧
      (on_activation env s).mission_item.altitude = env.gpos_alt ∧
      (on_activation env s).mission_item.altitude_is_relative = false) ∧
    (s.rtl_state ≠ RtlState.NONE →
      (on_activation env s).rtl_state = s.rtl_state) := by
  refine ⟨?_, ?_, ?_, ?_⟩
  · intro h0 hL
    rw [on_activation, set_rtl_item_rtl_state]
    simp [rtl_entry_decision, h0, hL]
  · intro h0 hL hAlt
    rw [on_activation, set_rtl_item_rtl_state]
    simp [rtl_entry_decision, h0, hL, hAlt]
  · intro h0 hL hAlt
    have hentry : rtl_entry_decision env s =
        { s with
          rtl_state := RtlState.RETURN
          mission_item := { s.mission_item with
            altitude_is_relative := false
            altitude := env.gpos_alt }
          rtl_start_lock := false } := by
      simp [rtl_entry_decision, h0, hL, hAlt]
    have hret : (rtl_entry_decision env s).rtl_state = RtlState.RETURN := by
      rw [hentry]
    have hkeep := set_rtl_item_return_keeps_altitude env (rtl_entry_decision env s) hret
    refine ⟨?_, ?_, ?_⟩
    · rw [on_activation, set_rtl_item_rtl_state, hret]
    · rw [on_activation, hkeep.1, hentry]
    · rw [on_activation, hkeep.2, hentry]
  · intro h0
    rw [on_activation, set_rtl_item_rtl_state]
    simp [rtl_entry_decision, h0]

/-- C1 witness: the three entry branches at concrete inputs. -/
theorem on_activation_entry_witness :
    (on_activation envW (ctlW RtlState.NONE)).rtl_state = RtlState.CLIMB ∧
    (on_activation envHigh (ctlW RtlState.NONE)).rtl_state = RtlState.RETURN ∧
    (on_activation envHigh (ctlW RtlState.NONE)).mission_item.altitude =
      envHigh.gpos_alt ∧
    (on_activation envLanded (ctlW RtlState.NONE)).rtl_state = RtlState.LANDED :=
  ⟨(on_activation_entry envW (ctlW RtlState.NONE)).2.1 rfl rfl
      (by norm_num [envW]),
   ((on_activation_entry envHigh (ctlW RtlState.NONE)).2.2.1 rfl rfl
      (by norm_num [envHigh, envW])).1,
   ((on_activation_entry envHigh (ctlW RtlState.NONE)).2.2.1 rfl rfl
      (by norm_num [envHigh, envW])).2.1,
   (on_activation_entry envLanded (ctlW RtlState.NONE)).1 rfl rfl⟩

/-- C2: the phase advancement maps CLIMB to RETURN, RETURN to DESCEND,
DESCEND to LOITER or LAND, LOITER to LAND, LAND to LANDED and keeps `NONE`
and `LANDED`; along the order index, advancement, target computation,
activation and the active hook never move the phase backward, and the
inactive hook either resets the phase to `NONE` or keeps it. -/
theorem rtl_phase_forward (env : Env) (s : RTLCtl) :
    ((s.rtl_state = RtlState.CLIMB →
        (advance_rtl_state env s).rtl_state = RtlState.RETURN) ∧
     (s.rtl_state = RtlState.RETURN →
        (advance_rtl_state env s).rtl_state = RtlState.DESCEND) ∧
     (s.rtl_state = RtlState.DESCEND →
        (advance_rtl_state env s).rtl_state = RtlState.LOITER ∨
        (advance_rtl_state env s).rtl_state = RtlState.LAND) ∧
     (s.rtl_state = RtlState.LOITER →
        (advance_rtl_state env s).rtl_state = RtlState.LAND) ∧
     (s.rtl_state = RtlState.LAND →
        (advance_rtl_state env s).rtl_state = RtlState.LANDED) ∧
     (s.rtl_state = RtlState.NONE ∨ s.rtl_state = RtlState.LANDED →
        (advance_rtl_state env s).rtl_state = s.rtl_state)) ∧
    phaseIdx s.rtl_state ≤ phaseIdx (advance_rtl_state env s).rtl_state ∧
    phaseIdx s.rtl_state ≤ phaseIdx (set_rtl_item env s).rtl_state ∧
    phaseIdx s.rtl_state ≤ phaseIdx (on_activation env s).rtl_state ∧
    phaseIdx s.rtl_state ≤ phaseIdx (on_active env s).rtl_state ∧
    ((on_inactive s).rtl_state = RtlState.NONE ∨
      (on_inactive s).rtl_state = s.rtl_state) := by
  refine ⟨⟨?_, ?_, ?_, ?_, ?_, ?_⟩, phaseIdx_advance_le env s, ?_, ?_, ?_, ?_⟩
  · intro h; simp [advance_rtl_state, h]
  · intro h; simp [advance_rtl_state, h]
  · intro h
    simp only [advance_rtl_state, h]
    split <;> simp
  · intro h; simp [advance_rtl_state, h]
  · intro h; simp [advance_rtl_state, h]
  · intro h; rcases h with h | h <;> simp [advance_rtl_state, h]
  · rw [set_rtl_item_rtl_state]
  · rw [on_activation, set_rtl_item_rtl_state]
    by_cases h0 : s.rtl_state = RtlState.NONE
    · simp only [rtl_entry_decision, if_pos h0]
      split_ifs <;> simp [h0, phaseIdx]
    · simp [rtl_entry_decision, h0]
  · rw [on_active]
    split_ifs with h
    · rw [set_rtl_item_rtl_state]
      exact phaseIdx_advance_le env s
    · exact le_refl _
  · cases hc : s.can_loiter_at_sp <;> simp [on_inactive, hc]

/-- C2 witness: advancement at concrete states. -/
theorem rtl_phase_forward_witness :
    (advance_rtl_state envW (ctlW RtlState.CLIMB)).rtl_state = RtlState.RETURN ∧
    (advance_rtl_state envW (ctlW RtlState.LANDED)).rtl_state =
      (ctlW RtlState.LANDED).rtl_state :=
  ⟨(rtl_phase_forward envW (ctlW RtlState.CLIMB)).1.1 rfl,
   (rtl_phase_forward envW (ctlW RtlState.LANDED)).1.2.2.2.2.2 (Or.inr rfl)⟩

/-- C3: advancing from DESCEND selects LOITER exactly when the land delay is
outside the closed band [−DELAY_SIGMA, DELAY_SIGMA], and LAND exactly when it
is inside. -/
theorem advance_from_descend (env : Env) (s : RTLCtl)
    (h : s.rtl_state = RtlState.DESCEND) :
    ((advance_rtl_state env s).rtl_state = RtlState.LOITER ↔
      (env.land_delay < -DELAY_SIGMA ∨ env.land_delay > DELAY_SIGMA)) ∧
    ((advance_rtl_state env s).rtl_state = RtlState.LAND ↔
      (-DELAY_SIGMA ≤ env.land_delay ∧ env.land_delay ≤ DELAY_SIGMA)) := by
  have hstep : (advance_rtl_state env s).rtl_state =
      (if env.land_delay < -DELAY_SIGMA ∨ env.land_delay > DELAY_SIGMA
       then RtlState.LOITER else RtlState.LAND) := by
    rcases s with ⟨st, lock, mi, tr, cl, mr, tu, ad⟩
    simp only at h
    subst h
    by_cases hc : env.land_delay < -DELAY_SIGMA ∨ env.land_delay > DELAY_SIGMA
    · rw [if_pos hc]
      simp only [advance_rtl_state]
      rw [if_pos hc]
    · rw [if_neg hc]
      simp only [advance_rtl_state]
      rw [if_neg hc]
  rw [hstep]
  by_cases hc : env.land_delay < -DELAY_SIGMA ∨ env.land_delay > DELAY_SIGMA
  · rw [if_pos hc]
    refine ⟨iff_of_true rfl hc, iff_of_false (by simp) ?_⟩
    rintro ⟨h1, h2⟩
    rcases hc with hc | hc <;> linarith
  · rw [if_neg hc]
    push_neg at hc
    exact ⟨iff_of_false (by simp) (fun hco => hco.elim
        (fun hlt => absurd hlt (not_lt.mpr hc.1))
        (fun hgt => absurd hgt (not_lt.mpr hc.2))),
      iff_of_true rfl hc⟩

/-- C3 witness: with land delay 5 the DESCEND phase advances to LOITER. -/
theorem advance_from_descend_witness :
    (advance_rtl_state envW (ctlW RtlState.DESCEND)).rtl_state =
      RtlState.LOITER :=
  (advance_from_descend envW (ctlW RtlState.DESCEND) rfl).1.mpr
    (Or.inr (by norm_num [envW, DELAY_SIGMA]))

theorem set_rtl_item_loiter_fields (env : Env) (s : RTLCtl)
    (h : s.rtl_state = RtlState.LOITER) :
    (set_rtl_item env s).mission_item.autocontinue =
      decide (env.land_delay > -DELAY_SIGMA) ∧
    (set_rtl_item env s).mission_item.nav_cmd =
      (if env.land_delay > -DELAY_SIGMA then NavCmd.LOITER_TIME_LIMIT
       else NavCmd.LOITER_UNLIMITED) ∧
    (set_rtl_item env s).mission_item.time_inside =
      (if env.land_delay < 0 then 0 else env.land_delay) := by
  rcases s with ⟨st, lock, mi, tr, cl, mr, tu, ad⟩
  simp only at h
  subst h
  cases lock <;> exact ⟨rfl, rfl, rfl⟩

/-- C4: the LOITER target: a delay above DELAY_SIGMA gives an auto-continued
timed loiter holding for the delay; a delay below −DELAY_SIGMA gives an
unlimited loiter with no auto-continue and zero hold time; in general the
command is the timed loiter exactly when the delay exceeds −DELAY_SIGMA,
auto-continue equals that comparison, and the hold time is max(0, delay). -/
theorem loiter_target_fields (env : Env) (s : RTLCtl)
    (h : s.rtl_state = RtlState.LOITER) :
    ((env.land_delay > DELAY_SIGMA →
        (set_rtl_item env s).mission_item.autocontinue = true ∧
        (set_rtl_item env s).mission_item.nav_cmd = NavCmd.LOITER_TIME_LIMIT ∧
        (set_rtl_item env s).mission_item.time_inside = env.land_delay) ∧
     (env.land_delay < -DELAY_SIGMA →
        (set_rtl_item env s).mission_item.autocontinue = false ∧
        (set_rtl_item env s).mission_item.nav_cmd = NavCmd.LOITER_UNLIMITED ∧
        (set_rtl_item env s).mission_item.time_inside = 0)) ∧
    ((set_rtl_item env s).mission_item.nav_cmd = NavCmd.LOITER_TIME_LIMIT ↔
      env.land_delay > -DELAY_SIGMA) ∧
    (set_rtl_item env s).mission_item.autocontinue =
      decide (env.land_delay > -DELAY_SIGMA) ∧
    (set_rtl_item env s).mission_item.time_inside = max 0 env.land_delay := by
  obtain ⟨hauto, hnav, htime⟩ := set_rtl_item_loiter_fields env s h
  have hσ : (0 : ℚ) < DELAY_SIGMA := by norm_num [DELAY_SIGMA]
  refine ⟨⟨?_, ?_⟩, ?_, hauto, ?_⟩
  · intro hgt
    have hd : env.land_delay > -DELAY_SIGMA := by linarith
    refine ⟨by simp [hauto, hd], by simp [hnav, hd], ?_⟩
    rw [htime, if_neg (by linarith)]
  · intro hlt
    have hd : ¬ env.land_delay > -DELAY_SIGMA := by
      intro hgt; linarith
    refine ⟨by simp [hauto, hd], by simp [hnav, hd], ?_⟩
    rw [htime, if_pos (by linarith)]
  · by_cases hd : env.land_delay > -DELAY_SIGMA <;> simp [hnav, hd]
  · rw [htime]
    rcases lt_or_le env.land_delay 0 with h0 | h0
    · rw [if_pos h0, max_eq_left h0.le]
    · rw [if_neg (not_lt.mpr h0), max_eq_right h0]

/-- C4 witness: the timed branch at delay 5 and the unlimited branch at
delay −1. -/
theorem loiter_target_fields_witness :
    (set_rtl_item envW (ctlW RtlState.LOITER)).mission_item.autocontinue =
      true ∧
    (set_rtl_item envNeg (ctlW RtlState.LOITER)).mission_item.nav_cmd =
      NavCmd.LOITER_UNLIMITED :=
  ⟨((loiter_target_fields envW (ctlW RtlState.LOITER) rfl).1.1
      (by norm_num [envW, DELAY_SIGMA])).1,
   ((loiter_target_fields envNeg (ctlW RtlState.LOITER) rfl).1.2
      (by norm_num [envNeg, envW, DELAY_SIGMA])).2.1⟩

/-- C5 (amended): how the start lock evolves: phase advancement and the
inactive hook never touch it; a target computation sets it exactly when the
phase being computed is RETURN and never clears it; an airborne activation
from `NONE` leaves it set exactly when the entry goes straight to RETURN;
a landed activation from `NONE` leaves it at its prior value (the landed
entry branch does not clear it). -/
theorem rtl_start_lock_evolution (env : Env) (s : RTLCtl) :
    (advance_rtl_state env s).rtl_start_lock = s.rtl_start_lock ∧
    (set_rtl_item env s).rtl_start_lock =
      (s.rtl_start_lock || decide (s.rtl_state = RtlState.RETURN)) ∧
    (on_inactive s).rtl_start_lock = s.rtl_start_lock ∧
    (s.rtl_state = RtlState.NONE → env.condition_landed = false →
      (on_activation env s).rtl_start_lock =
        decide (¬ env.gpos_alt < env.home_alt + env.return_alt)) ∧
    (s.rtl_state = RtlState.NONE → env.condition_landed = true →
      (on_activation env s).rtl_start_lock = s.rtl_start_lock) := by
  refine ⟨advance_rtl_keeps_lock env s, set_rtl_item_start_lock env s, ?_, ?_, ?_⟩
  · cases hc : s.can_loiter_at_sp <;> simp [on_inactive, hc]
  · intro h0 hL
    rw [on_activation, set_rtl_item_start_lock]
    by_cases hAlt : env.gpos_alt < env.home_alt + env.return_alt
    · have hentry : rtl_entry_decision env s =
          { s with rtl_state := RtlState.CLIMB, rtl_start_lock := false } := by
        simp [rtl_entry_decision, h0, hL, hAlt]
      rw [hentry]
      simp [hAlt]
    · have hentry : rtl_entry_decision env s =
          { s with
            rtl_state := RtlState.RETURN
            mission_item := { s.mission_item with
              altitude_is_relative := false
              altitude := env.gpos_alt }
            rtl_start_lock := false } := by
        simp [rtl_entry_decision, h0, hL, hAlt]
      rw [hentry]
      simp [hAlt]
  · intro h0 hL
    rw [on_activation, set_rtl_item_start_lock]
    have hentry : rtl_entry_decision env s =
        { s with
          rtl_state := RtlState.LANDED
          advisories := s.advisories ++ [Advisory.noRtlWhenLanded] } := by
      simp [rtl_entry_decision, h0, hL]
    rw [hentry]
    simp

/-- C5 witness: on concrete activations from `NONE`, a high airborne entry
sets the lock and a landed entry preserves it. -/
theorem rtl_start_lock_evolution_witness :
    (on_activation envHigh (ctlW RtlState.NONE)).rtl_start_lock =
      decide (¬ envHigh.gpos_alt < envHigh.home_alt + envHigh.return_alt) ∧
    (on_activation envLanded (ctlW RtlState.NONE)).rtl_start_lock =
      (ctlW RtlState.NONE).rtl_start_lock :=
  ⟨(rtl_start_lock_evolution envHigh (ctlW RtlState.NONE)).2.2.2.1 rfl rfl,
   (rtl_start_lock_evolution envLanded (ctlW RtlState.NONE)).2.2.2.2 rfl rfl⟩

/-- C5 counterexample: the claim "startLock is false from the entry decision
until the first RETURN target is computed" fails on a reachable trace: after
an activation that entered RETURN (locking), an inactive reset to `NONE`
(which does not clear the lock), and a re-activation while landed (whose
entry branch does not clear the lock either), the controller sits in phase
`LANDED` with the start lock already true although no RETURN target has been
computed in this activation. -/
theorem rtl_start_lock_cex :
    (on_activation envLanded
       (on_inactive (on_activation envHigh initialState))).rtl_state =
      RtlState.LANDED ∧
    (on_activation envLanded
       (on_inactive (on_activation envHigh initialState))).rtl_start_lock =
      true := by
  have hcmp : ¬ envHigh.gpos_alt < envHigh.home_alt + envHigh.return_alt := by
    norm_num [envHigh, envW]
  have h0 : initialState.rtl_state = RtlState.NONE := rfl
  have hland1 : envHigh.condition_landed = false := rfl
  have hentry1 :
      (rtl_entry_decision envHigh initialState).rtl_state = RtlState.RETURN ∧
      (rtl_entry_decision envHigh initialState).rtl_start_lock = false := by
    constructor <;> simp [rtl_entry_decision, h0, hland1, hcmp]
  have ha1lock : (on_activation envHigh initialState).rtl_start_lock = true := by
    rw [on_activation, set_rtl_item_start_lock, hentry1.2, hentry1.1]
    simp
  have ha1can :
      (on_activation envHigh initialState).can_loiter_at_sp = false := by
    rw [on_activation, set_rtl_item_can_loiter, hentry1.1]
    simp
  have h2state :
      (on_inactive (on_activation envHigh initialState)).rtl_state =
        RtlState.NONE := by
    simp [on_inactive, ha1can]
  have h2lock :
      (on_inactive (on_activation envHigh initialState)).rtl_start_lock =
        true := by
    simp [on_inactive, ha1can, ha1lock]
  have hentry3 :
      (rtl_entry_decision envLanded
        (on_inactive (on_activation envHigh initialState))).rtl_state =
          RtlState.LANDED ∧
      (rtl_entry_decision envLanded
        (on_inactive (on_activation envHigh initialState))).rtl_start_lock =
          true := by
    have hland3 : envLanded.condition_landed = true := rfl
    constructor <;> simp [rtl_entry_decision, h2state, h2lock, hland3]
  constructor
  · rw [on_activation, set_rtl_item_rtl_state]
    exact hentry3.1
  · rw [on_activation, set_rtl_item_start_lock, hentry3.2, hentry3.1]
    simp

/-- Setting of the "previous" setpoint slot at the moment the RETURN branch
reads it: when the start lock is held the slot is untouched, otherwise the
baseline capture has just overwritten it with the current slot. -/
def previousAfterCapture (s : RTLCtl) : PositionSetpoint :=
  if s.rtl_start_lock then s.triplet.previous else s.triplet.current

/-- C7: the RETURN target: position is home, the altitude and its
absolute/relative marking are left unchanged, the command is an
auto-continued waypoint, and the yaw is the bearing to home from the
previous setpoint when that slot is valid, else from the current vehicle
position. -/
theorem return_target_fields (env : Env) (s : RTLCtl)
    (h : s.rtl_state = RtlState.RETURN) :
    (set_rtl_item env s).mission_item.lat = env.home_lat ∧
    (set_rtl_item env s).mission_item.lon = env.home_lon ∧
    (set_rtl_item env s).mission_item.altitude = s.mission_item.altitude ∧
    (set_rtl_item env s).mission_item.altitude_is_relative =
      s.mission_item.altitude_is_relative ∧
    (set_rtl_item env s).mission_item.nav_cmd = NavCmd.WAYPOINT ∧
    (set_rtl_item env s).mission_item.autocontinue = true ∧
    (set_rtl_item env s).mission_item.yaw = some
      (if (previousAfterCapture s).valid then
        get_bearing_to_next_waypoint (previousAfterCapture s).lat
          (previousAfterCapture s).lon env.home_lat env.home_lon
      else
        get_bearing_to_next_waypoint env.gpos_lat env.gpos_lon
          env.home_lat env.home_lon) := by
  rcases s with ⟨st, lock, mi, tr, cl, mr, tu, ad⟩
  simp only at h
  subst h
  cases lock <;> exact ⟨rfl, rfl, rfl, rfl, rfl, rfl, rfl⟩

/-- C7 witness: the RETURN target on a concrete state keeps the altitude and
heads home as an auto-continued waypoint. -/
theorem return_target_fields_witness :
    (set_rtl_item envHigh (ctlW RtlState.RETURN)).mission_item.lat =
      envHigh.home_lat ∧
    (set_rtl_item envHigh (ctlW RtlState.RETURN)).mission_item.altitude =
      (ctlW RtlState.RETURN).mission_item.altitude ∧
    (set_rtl_item envHigh (ctlW RtlState.RETURN)).mission_item.autocontinue =
      true :=
  ⟨(return_target_fields envHigh (ctlW RtlState.RETURN) rfl).1,
   (return_target_fields envHigh (ctlW RtlState.RETURN) rfl).2.2.1,
   (return_target_fields envHigh (ctlW RtlState.RETURN) rfl).2.2.2.2.2.1⟩
